import Mathlib

/-!
Verification of the voice-keying, mode-switching and recording logic of
`rig-macros.py` (N9OH Rig Control Panel).

The Python functions `play_voice_memory_t1`, `play_tts_n9oh`, `play_tts_tu59`,
`play_tts_73`, `toggle_recording`, `save_recording` and `delete_recording` are
shallowly embedded as pure Lean functions.  Each external effect that can fail
in the source (a serial RTS write, an XML-RPC call to flrig, a subprocess
launch, a filesystem check) is driven by an explicit environment record whose
fields say, per call site, whether that call succeeds and what it returns.
Each run yields the final hardware state (RTS line, rig mode), a trace of the
observable events in program order, and the outcome the operator would see.

`play_tts_n9oh` and `play_tts_tu59` are textually identical in the source up
to the wav-file path, so both are instances of one parameterised definition;
`play_voice_memory_t2` likewise differs from `play_voice_memory_t1` only in
the CI-V command bytes and labels.  The power-meter poll loop that the source
schedules through `root.after` is folded into the run sequentially, bounded by
a fuel parameter because the source's loop has no timeout of its own.
-/

namespace RigMacros

/-- Observable events of one keying / recording run, in program order.
`rtsUp` / `rtsDown` are successful serial RTS transitions (PTT key / unkey);
the `Fail` variants are attempts that raised.  `waitSleep` is one 0.1 s sleep
of the TTS-file readiness wait loop; `settleSleep` is an explicit
`time.sleep` of the given milliseconds.  `pollPwr v` is one successful
`flrig.rig.get_pwrmeter()` read returning `v`; `pollFail` is a read that
raised.  `play f c` is one `paplay f` run with exit status `c`
(`none` means the launch itself raised). -/
inductive Ev where
  | rtsUp : Ev
  | rtsDown : Ev
  | rtsUpFail : Ev
  | rtsDownFail : Ev
  | civWrite (cmd : String) : Ev
  | civWriteFail : Ev
  | pollPwr (v : Nat) : Ev
  | pollFail : Ev
  | modeGetFail : Ev
  | modeSet (m : String) : Ev
  | modeSetFail (m : String) : Ev
  | soxRun (src dst : String) (ok : Bool) : Ev
  | play (file : String) (exitCode : Option Int) : Ev
  | waitSleep : Ev
  | settleSleep (ms : Nat) : Ev
  deriving Repr, DecidableEq

/-- Hardware state owned by the application: the serial RTS line (PTT) and
the rig operating mode as last set. -/
structure RigState where
  rts : Bool
  mode : String
  deriving Repr, DecidableEq

/-- Result of one embedded run: final hardware state, event trace, outcome. -/
structure RunOut (α : Type) where
  state : RigState
  trace : List Ev
  result : α
  deriving Repr, DecidableEq

/-! ## Hardware voice memory (`play_voice_memory_t1`) -/

/-- Operator-visible outcome of `play_voice_memory_t1`.  `keyerError` is the
outer `except` path (here: `get_ptt` raised); `serialError` is the inner
serial `except` path; `pollTimeout` is a fuel artifact of embedding the
source's unbounded power-meter poll loop. -/
inductive MemOutcome where
  | serialUnavailable : MemOutcome
  | keyerError : MemOutcome
  | alreadyTransmitting : MemOutcome
  | serialError : MemOutcome
  | finished : MemOutcome
  | monitorError : MemOutcome
  | pollTimeout : MemOutcome
  deriving Repr, DecidableEq

/-- Fault/response schedule for one `play_voice_memory_t1` run, one field per
fallible call site of the source. -/
structure MemEnv where
  serialOpen : Bool
  getPttOk : Bool
  pttStatus : Nat
  rtsRaiseOk : Bool
  civWriteOk : Bool
  rtsLowerOk : Bool
  rtsExceptOk : Bool
  pwrOk : Nat → Bool
  pwr : Nat → Nat

/-- CI-V command bytes the source sends to trigger voice memory T1
(`bytes.fromhex("FEFE94E3280001FD")`). -/
def cmdT1 : String := "FEFE94E3280001FD"

/-- The `wait_and_stop` poll loop of `play_voice_memory_t1`: read the power
meter until it reads zero (`some true`), a read raises (`some false`,
"Monitor error"), or fuel runs out (`none`; the source loop is unbounded). -/
def pollLoop (env : MemEnv) : Nat → Nat → List Ev × Option Bool
  | _, 0 => ([], none)
  | i, n + 1 =>
    if env.pwrOk i then
      if env.pwr i = 0 then ([Ev.pollPwr 0], some true)
      else
        let r := pollLoop env (i + 1) n
        (Ev.pollPwr (env.pwr i) :: r.1, r.2)
    else ([Ev.pollFail], some false)

/-- Embedding of `play_voice_memory_t1` (src/rig-macros.py lines 574-627),
with the `root.after`-scheduled power-meter monitoring folded in
sequentially.  Control flow follows the source: serial-open guard, `get_ptt`
guard, then a `try` block raising RTS, writing the CI-V command and lowering
RTS, whose `except` handler attempts `serial_port.rts = False` once more and
returns; on success the power meter is polled until it reads zero. -/
def play_voice_memory_t1 (env : MemEnv) (fuel : Nat) (s : RigState) :
    RunOut MemOutcome :=
  if env.serialOpen then
    if env.getPttOk then
      if env.pttStatus = 1 then ⟨s, [], .alreadyTransmitting⟩
      else
        if env.rtsRaiseOk then
          let s1 : RigState := { s with rts := true }
          if env.civWriteOk then
            if env.rtsLowerOk then
              let s2 : RigState := { s1 with rts := false }
              let pr := pollLoop env 0 fuel
              ⟨s2, [Ev.rtsUp, Ev.civWrite cmdT1, Ev.rtsDown] ++ pr.1,
                match pr.2 with
                | some true => .finished
                | some false => .monitorError
                | none => .pollTimeout⟩
            else if env.rtsExceptOk then
              ⟨{ s1 with rts := false },
                [Ev.rtsUp, Ev.civWrite cmdT1, Ev.rtsDownFail, Ev.rtsDown],
                .serialError⟩
            else
              ⟨s1, [Ev.rtsUp, Ev.civWrite cmdT1, Ev.rtsDownFail, Ev.rtsDownFail],
                .serialError⟩
          else if env.rtsExceptOk then
            ⟨{ s1 with rts := false }, [Ev.rtsUp, Ev.civWriteFail, Ev.rtsDown],
              .serialError⟩
          else ⟨s1, [Ev.rtsUp, Ev.civWriteFail, Ev.rtsDownFail], .serialError⟩
        else if env.rtsExceptOk then
          ⟨{ s with rts := false }, [Ev.rtsUpFail, Ev.rtsDown], .serialError⟩
        else ⟨s, [Ev.rtsUpFail, Ev.rtsDownFail], .serialError⟩
    else ⟨s, [], .keyerError⟩
  else ⟨s, [], .serialUnavailable⟩

/-! ## Synthesized-prompt keying (`play_tts_n9oh`, `play_tts_tu59`, `play_tts_73`) -/

/-- Operator-visible outcome of a TTS keying run.  `ttsError` is the outer
`except` handler of the source's `tts_thread` (which lowers RTS but does not
restore the mode). -/
inductive TtsOutcome where
  | serialUnavailable : TtsOutcome
  | promptNotReady : TtsOutcome
  | rtsControlFailed : TtsOutcome
  | finished : TtsOutcome
  | ttsError : TtsOutcome
  deriving Repr, DecidableEq

/-- Fault/response schedule for one TTS keying run, one field per fallible
call site of the source.  `fileExists i` is the result of the i-th
`os.path.exists(wav_file)` check; `paplayRun` is `none` when the `paplay`
launch raises and `some c` when it exits with status `c`.  `pttStatus` is
what `flrig.rig.get_ptt()` would report at entry — the TTS source code never
consults it. -/
structure TtsEnv where
  serialOpen : Bool
  pttStatus : Nat
  fileExists : Nat → Bool
  getModeOk : Bool
  setModeDataOk : Bool
  rtsRaiseOk : Bool
  paplayRun : Option Int
  rtsLowerOk : Bool
  setModeRestoreOk : Bool
  rtsOuterOk : Bool

/-- Python `"-D" in m` on the character list of `m`: does the two-character
pattern `-D` occur anywhere in the string? -/
def containsDashD : List Char → Bool
  | [] => false
  | [_] => false
  | a :: b :: rest => (a = '-' && b = 'D') || containsDashD (b :: rest)

/-- Python `m.replace("-D", "")`: remove every (left-to-right,
non-overlapping) occurrence of the two-character pattern `-D`. -/
def replaceDashD : List Char → List Char
  | [] => []
  | [c] => [c]
  | a :: b :: rest =>
    if a = '-' && b = 'D' then replaceDashD rest
    else a :: replaceDashD (b :: rest)

/-- The data variant the source switches to before TTS playback:
`original_mode + "-D"` if `"-D" not in original_mode`, else `original_mode`
unchanged (src lines 734-738). -/
def dataVariant (m : String) : String :=
  if containsDashD m.data then m else m ++ "-D"

/-- The mode string the source restores after TTS playback:
`original_mode.replace("-D", "")` (src line 780). -/
def restoreVariant (m : String) : String :=
  String.mk (replaceDashD m.data)

/-- Wav file of the first TTS button. -/
def wavN9oh : String := "/tmp/tts_n9oh.wav"

/-- Wav file of the second TTS button. -/
def wavTu59 : String := "/tmp/tts_tu59.wav"

/-- Wav file of the third TTS button. -/
def wav73 : String := "/tmp/tts_73.wav"

/-- Pitch-shifted output file of the third TTS button. -/
def pitched73 : String := "/tmp/tts_73_pitched.wav"

/-- The mode snapshot-and-switch `try` block of the TTS functions
(src lines 729-743): read the current mode, switch the rig to its data
variant, settle 0.2 s; a raise from `get_mode` leaves the snapshot `none`,
a raise from `set_mode` keeps the snapshot but leaves the mode unchanged.
Returns (snapshot, new state, events). -/
def snapshotStep (env : TtsEnv) (s : RigState) :
    Option String × RigState × List Ev :=
  if env.getModeOk then
    if env.setModeDataOk then
      (some s.mode, { s with mode := dataVariant s.mode },
        [Ev.modeSet (dataVariant s.mode), Ev.settleSleep 200])
    else (some s.mode, s, [Ev.modeSetFail (dataVariant s.mode)])
  else (none, s, [Ev.modeGetFail])

/-- The mode restore block of the TTS functions (src lines 777-785):
`if original_mode:` (Python truthiness — skipped when the snapshot is `None`
or the empty string), then `set_mode(original_mode.replace("-D", ""))`
inside a `try` whose raise is only logged. -/
def restoreStep (env : TtsEnv) (om : Option String) (s : RigState) :
    RigState × List Ev :=
  match om with
  | none => (s, [])
  | some m =>
    if m.data.isEmpty then (s, [])
    else if env.setModeRestoreOk then
      ({ s with mode := restoreVariant m },
        [Ev.modeSet (restoreVariant m), Ev.settleSleep 100])
    else (s, [Ev.modeSetFail (restoreVariant m)])

/-- The keying core shared verbatim by all three TTS buttons once the
playback file is known: snapshot/switch mode, raise RTS (a raise here
returns at once, restoring nothing), run `paplay`, lower RTS (a raise here
is only logged), restore the mode.  A raise from the `paplay` launch reaches
the outer handler, which lowers RTS but skips the mode restore. -/
def tts_key_play (playFile : String) (env : TtsEnv) (s : RigState) :
    RunOut TtsOutcome :=
  let snap := snapshotStep env s
  let om := snap.1
  let s1 := snap.2.1
  let mEvs := snap.2.2
  if env.rtsRaiseOk then
    let s2 : RigState := { s1 with rts := true }
    match env.paplayRun with
    | none =>
      if env.rtsOuterOk then
        ⟨{ s2 with rts := false },
          mEvs ++ [Ev.rtsUp, Ev.play playFile none, Ev.rtsDown], .ttsError⟩
      else
        ⟨s2, mEvs ++ [Ev.rtsUp, Ev.play playFile none, Ev.rtsDownFail],
          .ttsError⟩
    | some code =>
      if env.rtsLowerOk then
        let r := restoreStep env om { s2 with rts := false }
        ⟨r.1, mEvs ++ [Ev.rtsUp, Ev.play playFile (some code), Ev.rtsDown]
          ++ r.2, .finished⟩
      else
        let r := restoreStep env om s2
        ⟨r.1, mEvs ++ [Ev.rtsUp, Ev.play playFile (some code), Ev.rtsDownFail]
          ++ r.2, .finished⟩
  else ⟨s1, mEvs ++ [Ev.rtsUpFail], .rtsControlFailed⟩

/-- The 50-iteration readiness wait loop of the TTS functions
(`for i in range(50): if os.path.exists(...): break; time.sleep(0.1)`).
`idx` numbers the existence checks; returns the sleep events and the index
the post-loop existence check will use. -/
def ttsWaitLoop (ex : Nat → Bool) : Nat → Nat → List Ev × Nat
  | idx, 0 => ([], idx)
  | idx, n + 1 =>
    if ex idx then ([], idx + 1)
    else
      let r := ttsWaitLoop ex (idx + 1) n
      (Ev.waitSleep :: r.1, r.2)

/-- The readiness check of the TTS functions (src lines 714-725): an initial
existence check, on failure the bounded 50-poll wait loop, then one final
existence check that decides whether to proceed. -/
def ttsReady (ex : Nat → Bool) : List Ev × Bool :=
  if ex 0 then ([], true)
  else
    let r := ttsWaitLoop ex 1 50
    (r.1, ex r.2)

/-- Embedding of `play_tts_n9oh` / `play_tts_tu59` (src lines 703-798 and
803-898, identical up to the wav path): serial-open guard, bounded
readiness wait, then the shared keying core on the given wav file. -/
def play_tts (wavFile : String) (env : TtsEnv) (s : RigState) :
    RunOut TtsOutcome :=
  if env.serialOpen then
    let w := ttsReady env.fileExists
    if w.2 then
      let r := tts_key_play wavFile env s
      ⟨r.state, w.1 ++ r.trace, r.result⟩
    else ⟨s, w.1, .promptNotReady⟩
  else ⟨s, [], .serialUnavailable⟩

/-- `play_tts_n9oh` of the source. -/
def play_tts_n9oh (env : TtsEnv) (s : RigState) : RunOut TtsOutcome :=
  play_tts wavN9oh env s

/-- `play_tts_tu59` of the source. -/
def play_tts_tu59 (env : TtsEnv) (s : RigState) : RunOut TtsOutcome :=
  play_tts wavTu59 env s

/-- Environment of `play_tts_73`: the TTS fault schedule plus the configured
pitch amount (`button3_pitch`, fallback "150") and the sox outcome
(`none` = launch raised, `some c` = exit status `c`). -/
structure Tts73Env extends TtsEnv where
  pitch : String
  soxOutcome : Option Int

/-- Embedding of `play_tts_73` (src lines 903-1017): like the other TTS
buttons but with a sox pitch-shift step between the readiness wait and the
keying core.  When a pitch is configured (`button3_pitch` truthy and not
"0") and sox exits zero, the pitched file is played; on a non-zero exit or
a raised launch the original wav file is played and the run continues
unchanged. -/
def play_tts_73 (env : Tts73Env) (s : RigState) : RunOut TtsOutcome :=
  if env.serialOpen then
    let w := ttsReady env.fileExists
    if w.2 then
      let sx : String × List Ev :=
        if env.pitch ≠ "" ∧ env.pitch ≠ "0" then
          match env.soxOutcome with
          | some c =>
            if c = 0 then (pitched73, [Ev.soxRun wav73 pitched73 true])
            else (wav73, [Ev.soxRun wav73 pitched73 false])
          | none => (wav73, [Ev.soxRun wav73 pitched73 false])
        else (wav73, [])
      let r := tts_key_play sx.1 env.toTtsEnv s
      ⟨r.state, w.1 ++ sx.2 ++ r.trace, r.result⟩
    else ⟨s, w.1, .promptNotReady⟩
  else ⟨s, [], .serialUnavailable⟩

/-! ## QSO recorder (`toggle_recording`, `save_recording`, `delete_recording`) -/

/-- Recorder state: whether the ffmpeg capture process is live
(`recording_process is not None`), the current recording file
(`current_recording_file`), the saved flag (`recording_was_saved`), and the
set of files existing on disk. -/
structure RecState where
  recording : Bool
  currentFile : Option String
  saved : Bool
  files : List String
  deriving Repr, DecidableEq

/-- Embedding of `toggle_recording` (src lines 374-419).  Starting a
recording sets the current file and clears the saved flag before launching
ffmpeg (`spawnOk` is whether the launch succeeds; on a raise the process
reference is cleared).  Stopping only terminates the process. -/
def toggle_recording (spawnOk : Bool) (newName : String) (s : RecState) :
    RecState :=
  if s.recording then { s with recording := false }
  else
    let s1 := { s with currentFile := some newName, saved := false }
    if spawnOk then { s1 with recording := true, files := newName :: s1.files }
    else { s1 with recording := false }

/-- Embedding of `delete_recording` (src lines 422-465).  No-op when there is
no current file on disk; when the recording was saved, an explicit
confirmation (`confirm`, the `askyesno` answer) is required and a refusal
returns with everything unchanged; otherwise the capture process is stopped
and the file removed (`removeOk` is whether `os.remove` succeeds; on a raise
only the process reference is cleared). -/
def delete_recording (confirm : Bool) (removeOk : Bool) (s : RecState) :
    RecState :=
  match s.currentFile with
  | none => s
  | some f =>
    if f ∈ s.files then
      if s.saved ∧ ¬ confirm then s
      else
        let s1 := { s with recording := false }
        if removeOk then
          { s1 with
            files := s1.files.erase f
            currentFile := none
            saved := false }
        else s1
    else s

/-- Embedding of `save_recording` (src lines 481-521).  No-op when there is
no current file on disk or the save dialog is cancelled (`savePath = none`,
covering Python-falsy paths); otherwise the file is moved with `mv` and only
a zero exit status (`mvOk`) updates the current file and sets the saved
flag — a failed move changes nothing. -/
def save_recording (savePath : Option String) (mvOk : Bool) (s : RecState) :
    RecState :=
  match s.currentFile with
  | none => s
  | some f =>
    if f ∈ s.files then
      match savePath with
      | none => s
      | some p =>
        if mvOk then
          { s with
            files := p :: s.files.erase f
            currentFile := some p
            saved := true }
        else s
    else s

/-- One user-level recorder operation with its fault schedule. -/
inductive RecOp where
  | toggle (spawnOk : Bool) (newName : String) : RecOp
  | save (savePath : Option String) (mvOk : Bool) : RecOp
  | del (confirm : Bool) (removeOk : Bool) : RecOp
  deriving Repr, DecidableEq

/-- Step one recorder operation. -/
def recStep : RecOp → RecState → RecState
  | .toggle ok n, s => toggle_recording ok n s
  | .save p mv, s => save_recording p mv s
  | .del c r, s => delete_recording c r s

/-- Run a sequence of recorder operations. -/
def recRun (ops : List RecOp) (s : RecState) : RecState :=
  ops.foldl (fun st op => recStep op st) s

/-- Recorder state at application start: no process, no file, flag clear. -/
def recInit : RecState := ⟨false, none, false, []⟩

/-! ## Claim C4 as stated: the held-until-meter-zero predicate -/

/-- Scan for a successful PTT de-assert occurring before the power meter has
been polled down to zero. -/
def heldScan : List Ev → Bool
  | [] => true
  | Ev.pollPwr 0 :: _ => true
  | Ev.rtsDown :: _ => false
  | _ :: tl => heldScan tl

/-- Claim C4 as stated: from the moment the CI-V command is sent, the PTT
line stays asserted until a power-meter poll reads zero. -/
def pttHeldUntilZero (tr : List Ev) : Bool :=
  heldScan (tr.dropWhile (fun e => e != Ev.civWrite cmdT1))

/-! ## Helper lemmas -/

lemma ttsWaitLoop_wait (ex : Nat → Bool) :
    ∀ n idx, ∀ e ∈ (ttsWaitLoop ex idx n).1, e = Ev.waitSleep := by
  intro n
  induction n with
  | zero => intro idx e he; simp [ttsWaitLoop] at he
  | succ n ih =>
    intro idx e he
    by_cases h : ex idx
    · simp [ttsWaitLoop, h] at he
    · simp [ttsWaitLoop, h] at he
      rcases he with he | he
      · exact he
      · exact ih (idx + 1) e he

lemma ttsWaitLoop_len (ex : Nat → Bool) :
    ∀ n idx, (ttsWaitLoop ex idx n).1.length ≤ n := by
  intro n
  induction n with
  | zero => intro idx; simp [ttsWaitLoop]
  | succ n ih =>
    intro idx
    by_cases h : ex idx
    · simp [ttsWaitLoop, h]
    · simp only [ttsWaitLoop, h, if_false, List.length_cons]
      exact Nat.succ_le_succ (ih (idx + 1))

lemma ttsReady_wait (ex : Nat → Bool) :
    ∀ e ∈ (ttsReady ex).1, e = Ev.waitSleep := by
  intro e he
  by_cases h : ex 0
  · simp [ttsReady, h] at he
  · simp only [ttsReady, h, if_false] at he
    exact ttsWaitLoop_wait ex 50 1 e he

lemma ttsReady_len (ex : Nat → Bool) : (ttsReady ex).1.length ≤ 50 := by
  by_cases h : ex 0
  · simp [ttsReady, h]
  · simp only [ttsReady, h, if_false]
    exact ttsWaitLoop_len ex 50 1

lemma pollLoop_poll (env : MemEnv) :
    ∀ n i, ∀ e ∈ (pollLoop env i n).1,
      (∃ v, e = Ev.pollPwr v) ∨ e = Ev.pollFail := by
  intro n
  induction n with
  | zero => intro i e he; simp [pollLoop] at he
  | succ n ih =>
    intro i e he
    by_cases h1 : env.pwrOk i
    · by_cases h2 : env.pwr i = 0
      · simp [pollLoop, h1, h2] at he
        exact Or.inl ⟨0, he⟩
      · simp only [pollLoop, h1, if_true, h2, if_false, List.mem_cons] at he
        rcases he with he | he
        · exact Or.inl ⟨env.pwr i, he⟩
        · exact ih (i + 1) e he
    · simp [pollLoop, h1] at he
      exact Or.inr he

lemma restoreStep_rts (env : TtsEnv) (om : Option String) (s : RigState) :
    (restoreStep env om s).1.rts = s.rts := by
  rcases om with _ | m
  · rfl
  · unfold restoreStep
    by_cases h1 : m.data.isEmpty
    · simp [h1]
    · by_cases h2 : env.setModeRestoreOk <;> simp [h1, h2]

lemma snapshotStep_rts (env : TtsEnv) (s : RigState) :
    (snapshotStep env s).2.1.rts = s.rts := by
  unfold snapshotStep
  by_cases h1 : env.getModeOk
  · by_cases h2 : env.setModeDataOk <;> simp [h1, h2]
  · simp [h1]

lemma snapshotStep_mem (env : TtsEnv) (s : RigState) :
    ∀ e ∈ (snapshotStep env s).2.2,
      e = Ev.modeSet (dataVariant s.mode) ∨ e = Ev.settleSleep 200 ∨
        e = Ev.modeSetFail (dataVariant s.mode) ∨ e = Ev.modeGetFail := by
  unfold snapshotStep
  by_cases h1 : env.getModeOk
  · by_cases h2 : env.setModeDataOk <;> simp [h1, h2]
  · simp [h1]

lemma restoreStep_mem (env : TtsEnv) (om : Option String) (s : RigState) :
    ∀ e ∈ (restoreStep env om s).2,
      (∃ m, e = Ev.modeSet m) ∨ (∃ m, e = Ev.modeSetFail m) ∨
        (∃ k, e = Ev.settleSleep k) := by
  rcases om with _ | m
  · simp [restoreStep]
  · unfold restoreStep
    by_cases h1 : m.data.isEmpty
    · simp [h1]
    · by_cases h2 : env.setModeRestoreOk <;> simp [h1, h2]

lemma keyplay_rts_low (f : String) (env : TtsEnv) (s : RigState)
    (h1 : env.rtsLowerOk = true) (h2 : env.rtsOuterOk = true)
    (h3 : env.rtsRaiseOk = true) :
    (tts_key_play f env s).state.rts = false := by
  unfold tts_key_play
  rcases hp : env.paplayRun with _ | c
  · simp [h3, hp, h2]
  · simp [h3, hp, h1, restoreStep_rts]

lemma keyplay_noUp_of_raiseFail (f : String) (env : TtsEnv) (s : RigState)
    (h : env.rtsRaiseOk = false) :
    Ev.rtsUp ∉ (tts_key_play f env s).trace := by
  intro hmem
  have htr : (tts_key_play f env s).trace =
      (snapshotStep env s).2.2 ++ [Ev.rtsUpFail] := by
    simp [tts_key_play, h]
  rw [htr] at hmem
  rcases List.mem_append.mp hmem with hmem | hmem
  · rcases snapshotStep_mem env s Ev.rtsUp hmem with h1 | h1 | h1 | h1 <;>
      simp at h1
  · simp at hmem

lemma keyplay_down_attempt (f : String) (env : TtsEnv) (s : RigState)
    (h3 : env.rtsRaiseOk = true) :
    Ev.rtsDown ∈ (tts_key_play f env s).trace ∨
      Ev.rtsDownFail ∈ (tts_key_play f env s).trace := by
  unfold tts_key_play
  rcases hp : env.paplayRun with _ | c
  · by_cases h2 : env.rtsOuterOk <;> simp [h3, hp, h2]
  · by_cases h1 : env.rtsLowerOk <;> simp [h3, hp, h1]

lemma keyplay_result_ne_notReady (f : String) (env : TtsEnv) (s : RigState) :
    (tts_key_play f env s).result ≠ TtsOutcome.promptNotReady := by
  unfold tts_key_play
  by_cases h3 : env.rtsRaiseOk
  · rcases hp : env.paplayRun with _ | c
    · by_cases h2 : env.rtsOuterOk <;> simp [h3, hp, h2]
    · by_cases h1 : env.rtsLowerOk <;> simp [h3, hp, h1]
  · simp [h3]

lemma keyplay_restore (f : String) (env : TtsEnv) (s : RigState) (c : Int)
    (h3 : env.getModeOk = true) (h4 : env.rtsRaiseOk = true)
    (h5 : env.paplayRun = some c) (h6 : env.setModeRestoreOk = true)
    (h7 : s.mode.data.isEmpty = false) :
    (tts_key_play f env s).state.mode = restoreVariant s.mode ∧
      (tts_key_play f env s).result = TtsOutcome.finished := by
  by_cases hd : env.setModeDataOk <;> by_cases hl : env.rtsLowerOk <;>
    simp [tts_key_play, snapshotStep, restoreStep, h3, h4, h5, h6, h7, hd, hl]

lemma play_tts_closed (w : String) (env : TtsEnv) (s : RigState)
    (h1 : env.serialOpen = false) :
    play_tts w env s = ⟨s, [], .serialUnavailable⟩ := by
  simp [play_tts, h1]

lemma play_tts_notReady (w : String) (env : TtsEnv) (s : RigState)
    (h1 : env.serialOpen = true)
    (hr : (ttsReady env.fileExists).2 = false) :
    play_tts w env s = ⟨s, (ttsReady env.fileExists).1, .promptNotReady⟩ := by
  simp [play_tts, h1, hr]

lemma play_tts_shape (w : String) (env : TtsEnv) (s : RigState)
    (h1 : env.serialOpen = true)
    (hr : (ttsReady env.fileExists).2 = true) :
    play_tts w env s =
      ⟨(tts_key_play w env s).state,
        (ttsReady env.fileExists).1 ++ (tts_key_play w env s).trace,
        (tts_key_play w env s).result⟩ := by
  simp [play_tts, h1, hr]

lemma tts73_closed (e : Tts73Env) (s : RigState)
    (h1 : e.serialOpen = false) :
    play_tts_73 e s = ⟨s, [], .serialUnavailable⟩ := by
  simp [play_tts_73, h1]

lemma tts73_notReady (e : Tts73Env) (s : RigState)
    (h1 : e.serialOpen = true)
    (hr : (ttsReady e.fileExists).2 = false) :
    play_tts_73 e s = ⟨s, (ttsReady e.fileExists).1, .promptNotReady⟩ := by
  simp [play_tts_73, h1, hr]

lemma tts73_shape (e : Tts73Env) (s : RigState)
    (h1 : e.serialOpen = true)
    (hr : (ttsReady e.fileExists).2 = true) :
    ∃ f sEvs, play_tts_73 e s =
        ⟨(tts_key_play f e.toTtsEnv s).state,
          (ttsReady e.fileExists).1 ++ sEvs ++
            (tts_key_play f e.toTtsEnv s).trace,
          (tts_key_play f e.toTtsEnv s).result⟩ ∧
      (∀ ev ∈ sEvs, ∃ a b o, ev = Ev.soxRun a b o) := by
  by_cases hp : e.pitch ≠ "" ∧ e.pitch ≠ "0"
  · rcases hx : e.soxOutcome with _ | c
    · exact ⟨wav73, [Ev.soxRun wav73 pitched73 false],
        by simp [play_tts_73, h1, hr, hp, hx], by simp⟩
    · by_cases hc : c = 0
      · exact ⟨pitched73, [Ev.soxRun wav73 pitched73 true],
          by simp [play_tts_73, h1, hr, hp, hx, hc], by simp⟩
      · exact ⟨wav73, [Ev.soxRun wav73 pitched73 false],
          by simp [play_tts_73, h1, hr, hp, hx, hc], by simp⟩
  · exact ⟨wav73, [], by simp [play_tts_73, h1, hr, hp], by simp⟩

lemma t1_unkey (env : MemEnv) (fuel : Nat) (s : RigState)
    (h1 : env.rtsLowerOk = true) (h2 : env.rtsExceptOk = true)
    (hmem : Ev.rtsUp ∈ (play_voice_memory_t1 env fuel s).trace) :
    (play_voice_memory_t1 env fuel s).state.rts = false := by
  by_cases hso : env.serialOpen
  · by_cases hgp : env.getPttOk
    · by_cases hps : env.pttStatus = 1
      · simp [play_voice_memory_t1, hso, hgp, hps] at hmem
      · by_cases hra : env.rtsRaiseOk
        · by_cases hcw : env.civWriteOk
          · simp [play_voice_memory_t1, hso, hgp, hps, hra, hcw, h1]
          · simp [play_voice_memory_t1, hso, hgp, hps, hra, hcw, h2]
        · simp [play_voice_memory_t1, hso, hgp, hps, hra, h2] at hmem
    · simp [play_voice_memory_t1, hso, hgp] at hmem
  · simp [play_voice_memory_t1, hso] at hmem

/-! ## Concrete fixtures used by witnesses and counterexamples -/

/-- TTS fault schedule with every call succeeding: file ready at once,
`paplay` exits 0, no RPC or serial failure; PTT reported idle. -/
def ttsEnvOk : TtsEnv :=
  { serialOpen := true, pttStatus := 0, fileExists := fun _ => true,
    getModeOk := true, setModeDataOk := true, rtsRaiseOk := true,
    paplayRun := some 0, rtsLowerOk := true, setModeRestoreOk := true,
    rtsOuterOk := true }

/-- Voice-memory fault schedule with every call succeeding, the power meter
reading 5 W on the first poll and 0 on the second. -/
def memEnvOk : MemEnv :=
  { serialOpen := true, getPttOk := true, pttStatus := 0, rtsRaiseOk := true,
    civWriteOk := true, rtsLowerOk := true, rtsExceptOk := true,
    pwrOk := fun _ => true, pwr := fun i => if i = 0 then 5 else 0 }

/-- Third-button fault schedule with every call succeeding, the configured
fallback pitch of 150 cents, and sox exiting 0. -/
def tts73EnvOk : Tts73Env :=
  { toTtsEnv := ttsEnvOk, pitch := "150", soxOutcome := some 0 }

/-- Rig initially unkeyed in plain USB. -/
def sUSB : RigState := ⟨false, "USB"⟩

lemma keyplay_up_mem (f : String) (env : TtsEnv) (s : RigState)
    (h : env.rtsRaiseOk = true) :
    Ev.rtsUp ∈ (tts_key_play f env s).trace := by
  unfold tts_key_play
  rcases hp : env.paplayRun with _ | c
  · by_cases h2 : env.rtsOuterOk <;> simp [h, hp, h2]
  · by_cases h1 : env.rtsLowerOk <;> simp [h, hp, h1]

/-! ## Claims -/

/-- Claim C1, as stated, is false on the code: with every call succeeding
except the single post-playback `serial_port.rts = False` write (whose raise
the source only logs, src lines 771-775), `play_tts_n9oh` keys the radio,
finishes normally, and returns with the PTT line still asserted. -/
theorem c1_unkey_counterexample :
    Ev.rtsUp ∈ (play_tts_n9oh { ttsEnvOk with rtsLowerOk := false } sUSB).trace ∧
      (play_tts_n9oh { ttsEnvOk with rtsLowerOk := false } sUSB).result =
        TtsOutcome.finished ∧
      (play_tts_n9oh { ttsEnvOk with rtsLowerOk := false } sUSB).state.rts =
        true := by
  decide

/-- Claim C1 (amended): on every path of every keying operation on which PTT
was asserted, a de-assert of the PTT line is attempted before the operation
returns, and the line reads de-asserted whenever the de-assert writes on the
serial line themselves succeed.  (As stated the claim fails only when the
de-assert write itself raises, in which case the failure is logged and the
line can stay asserted.) -/
theorem c1_unkey_amended
    (em : MemEnv) (fuel : Nat) (sm : RigState)
    (et : TtsEnv) (w : String) (st : RigState)
    (e73 : Tts73Env) (s73 : RigState)
    (hm1 : em.rtsLowerOk = true) (hm2 : em.rtsExceptOk = true)
    (ht1 : et.rtsLowerOk = true) (ht2 : et.rtsOuterOk = true)
    (h71 : e73.rtsLowerOk = true) (h72 : e73.rtsOuterOk = true) :
    (Ev.rtsUp ∈ (play_voice_memory_t1 em fuel sm).trace →
      (play_voice_memory_t1 em fuel sm).state.rts = false) ∧
    (Ev.rtsUp ∈ (play_tts w et st).trace →
      (play_tts w et st).state.rts = false ∧
        (Ev.rtsDown ∈ (play_tts w et st).trace ∨
          Ev.rtsDownFail ∈ (play_tts w et st).trace)) ∧
    (Ev.rtsUp ∈ (play_tts_73 e73 s73).trace →
      (play_tts_73 e73 s73).state.rts = false) := by
  refine ⟨fun hmem => t1_unkey em fuel sm hm1 hm2 hmem,
    fun hmem => ?_, fun hmem => ?_⟩
  · cases hso : et.serialOpen with
    | false =>
      rw [play_tts_closed w et st hso] at hmem
      simp at hmem
    | true =>
      cases hr2 : (ttsReady et.fileExists).2 with
      | false =>
        rw [play_tts_notReady w et st hso hr2] at hmem
        have := ttsReady_wait et.fileExists _ hmem
        simp at this
      | true =>
        rw [play_tts_shape w et st hso hr2] at hmem ⊢
        simp only [List.mem_append] at hmem
        rcases hmem with hmem | hmem
        · have := ttsReady_wait et.fileExists _ hmem
          simp at this
        · cases hra : et.rtsRaiseOk with
          | false => exact absurd hmem (keyplay_noUp_of_raiseFail w et st hra)
          | true =>
            refine ⟨keyplay_rts_low w et st ht1 ht2 hra, ?_⟩
            rcases keyplay_down_attempt w et st hra with h | h
            · exact Or.inl (by simp only [List.mem_append]; right; exact h)
            · exact Or.inr (by simp only [List.mem_append]; right; exact h)
  · cases hso : e73.serialOpen with
    | false =>
      rw [tts73_closed e73 s73 hso] at hmem
      simp at hmem
    | true =>
      cases hr2 : (ttsReady e73.fileExists).2 with
      | false =>
        rw [tts73_notReady e73 s73 hso hr2] at hmem
        have := ttsReady_wait e73.fileExists _ hmem
        simp at this
      | true =>
        obtain ⟨f, sEvs, heq, hsox⟩ := tts73_shape e73 s73 hso hr2
        rw [heq] at hmem ⊢
        simp only [List.mem_append] at hmem
        rcases hmem with (hmem | hmem) | hmem
        · have := ttsReady_wait e73.fileExists _ hmem
          simp at this
        · obtain ⟨a, b, o, ho⟩ := hsox _ hmem
          simp at ho
        · cases hra : e73.toTtsEnv.rtsRaiseOk with
          | false =>
            exact absurd hmem (keyplay_noUp_of_raiseFail f e73.toTtsEnv s73 hra)
          | true => exact keyplay_rts_low f e73.toTtsEnv s73 h71 h72 hra

/-- Witness for C1 (amended) at all-succeeding schedules: each of the three
keying operations keys the radio and ends with the PTT line de-asserted. -/
theorem c1_unkey_witness :
    (play_voice_memory_t1 memEnvOk 5 sUSB).state.rts = false ∧
      (play_tts wavN9oh ttsEnvOk sUSB).state.rts = false ∧
      (play_tts_73 tts73EnvOk sUSB).state.rts = false := by
  have h := c1_unkey_amended memEnvOk 5 sUSB ttsEnvOk wavN9oh sUSB
    tts73EnvOk sUSB rfl rfl rfl rfl rfl rfl
  exact ⟨h.1 (by decide), (h.2.1 (by decide)).1, h.2.2 (by decide)⟩

/-- Claim C2, as stated, is false on the code: with every call succeeding and
prior mode "USB-D" (already a data variant), `play_tts_n9oh` finishes
normally but restores `original_mode.replace("-D", "")` = "USB", not the
snapshotted "USB-D". -/
theorem c2_mode_restore_counterexample :
    (play_tts_n9oh ttsEnvOk ⟨false, "USB-D"⟩).result = TtsOutcome.finished ∧
      Ev.modeSet "USB" ∈ (play_tts_n9oh ttsEnvOk ⟨false, "USB-D"⟩).trace ∧
      (play_tts_n9oh ttsEnvOk ⟨false, "USB-D"⟩).state.mode = "USB" ∧
      "USB" ≠ "USB-D" := by
  decide

/-- Claim C2 (amended): for every synthesized-prompt keying operation that
successfully snapshots a non-empty prior mode and reaches the playback step,
regardless of the playback exit status the mode set on the rig afterwards is
the snapshotted prior mode with every "-D" occurrence removed
(`original_mode.replace("-D", "")`) — equal to the prior mode exactly when
the prior mode was not already a data variant. -/
theorem c2_mode_restore_amended
    (env : TtsEnv) (w : String) (s : RigState) (c : Int)
    (e73 : Tts73Env) (t : RigState) (d : Int)
    (h1 : env.serialOpen = true) (h2 : env.fileExists 0 = true)
    (h3 : env.getModeOk = true) (h4 : env.rtsRaiseOk = true)
    (h5 : env.paplayRun = some c) (h6 : env.setModeRestoreOk = true)
    (h7 : s.mode.data.isEmpty = false)
    (g1 : e73.serialOpen = true) (g2 : e73.fileExists 0 = true)
    (g3 : e73.getModeOk = true) (g4 : e73.rtsRaiseOk = true)
    (g5 : e73.paplayRun = some d) (g6 : e73.setModeRestoreOk = true)
    (g7 : t.mode.data.isEmpty = false) :
    ((play_tts w env s).state.mode = restoreVariant s.mode ∧
      (play_tts w env s).result = TtsOutcome.finished) ∧
    ((play_tts_73 e73 t).state.mode = restoreVariant t.mode ∧
      (play_tts_73 e73 t).result = TtsOutcome.finished) := by
  constructor
  · have hready : (ttsReady env.fileExists).2 = true := by
      simp [ttsReady, h2]
    rw [play_tts_shape w env s h1 hready]
    exact keyplay_restore w env s c h3 h4 h5 h6 h7
  · have hready : (ttsReady e73.fileExists).2 = true := by
      simp [ttsReady, g2]
    obtain ⟨f, sEvs, heq, hsox⟩ := tts73_shape e73 t g1 hready
    rw [heq]
    exact keyplay_restore f e73.toTtsEnv t d g3 g4 g5 g6 g7

/-- Witness for C2 (amended): with prior mode "USB" and every call
succeeding, both TTS operations restore exactly "USB". -/
theorem c2_mode_restore_witness :
    ((play_tts wavN9oh ttsEnvOk sUSB).state.mode = restoreVariant sUSB.mode ∧
      (play_tts wavN9oh ttsEnvOk sUSB).result = TtsOutcome.finished) ∧
    ((play_tts_73 tts73EnvOk sUSB).state.mode = restoreVariant sUSB.mode ∧
      (play_tts_73 tts73EnvOk sUSB).result = TtsOutcome.finished) :=
  c2_mode_restore_amended ttsEnvOk wavN9oh sUSB 0 tts73EnvOk sUSB 0
    rfl rfl rfl rfl rfl rfl rfl rfl rfl rfl rfl rfl rfl rfl

/-- Claim C3, as stated, is false on the code: the TTS variant has no
already-transmitting guard.  With the Rig Control Client reporting PTT
active (`pttStatus = 1`) and every call succeeding, `play_tts_n9oh` still
switches the mode, keys the radio and finishes normally. -/
theorem c3_guard_counterexample :
    ({ ttsEnvOk with pttStatus := 1 } : TtsEnv).pttStatus = 1 ∧
      (play_tts_n9oh { ttsEnvOk with pttStatus := 1 } sUSB).result =
        TtsOutcome.finished ∧
      Ev.rtsUp ∈ (play_tts_n9oh { ttsEnvOk with pttStatus := 1 } sUSB).trace ∧
      Ev.modeSet "USB-D" ∈
        (play_tts_n9oh { ttsEnvOk with pttStatus := 1 } sUSB).trace := by
  decide

/-- Claim C3 (amended): only the hardware-voice-memory variant checks PTT at
entry — when `get_ptt` reports 1 it returns the already-transmitting error
with the state unchanged and an empty trace (nothing asserted, no mode
touched).  The synthesized-prompt variants perform no such check and key the
radio even when PTT is reported active. -/
theorem c3_guard_amended
    (em : MemEnv) (fuel : Nat) (sm : RigState)
    (et : TtsEnv) (w : String) (st : RigState)
    (hm1 : em.serialOpen = true) (hm2 : em.getPttOk = true)
    (hm3 : em.pttStatus = 1)
    (ht1 : et.serialOpen = true) (ht2 : et.pttStatus = 1)
    (ht3 : et.fileExists 0 = true) (ht4 : et.rtsRaiseOk = true) :
    play_voice_memory_t1 em fuel sm =
      ⟨sm, [], MemOutcome.alreadyTransmitting⟩ ∧
    Ev.rtsUp ∈ (play_tts w et st).trace := by
  constructor
  · simp [play_voice_memory_t1, hm1, hm2, hm3]
  · have hready : (ttsReady et.fileExists).2 = true := by
      simp [ttsReady, ht3]
    rw [play_tts_shape w et st ht1 hready]
    simp only [List.mem_append]
    exact Or.inr (keyplay_up_mem w et st ht4)

/-- Witness for C3 (amended) with PTT reported active at entry. -/
theorem c3_guard_witness :
    play_voice_memory_t1 { memEnvOk with pttStatus := 1 } 5 sUSB =
      ⟨sUSB, [], MemOutcome.alreadyTransmitting⟩ ∧
    Ev.rtsUp ∈
      (play_tts wavN9oh { ttsEnvOk with pttStatus := 1 } sUSB).trace :=
  c3_guard_amended { memEnvOk with pttStatus := 1 } 5 sUSB
    { ttsEnvOk with pttStatus := 1 } wavN9oh sUSB
    rfl rfl rfl rfl rfl rfl rfl

/-- Claim C4, as stated, is false on the code: in a fully successful
hardware-memory run the PTT line is de-asserted 50 ms after the CI-V command
(`serial_port.rts = False`, src line 599), before the power-meter poll loop
has even started — the trace shows `rtsDown` between the command and the
first power-meter poll, so the held-until-meter-zero predicate fails. -/
theorem c4_order_counterexample :
    (play_voice_memory_t1 memEnvOk 5 sUSB).result = MemOutcome.finished ∧
      (play_voice_memory_t1 memEnvOk 5 sUSB).trace =
        [Ev.rtsUp, Ev.civWrite cmdT1, Ev.rtsDown,
          Ev.pollPwr 5, Ev.pollPwr 0] ∧
      pttHeldUntilZero (play_voice_memory_t1 memEnvOk 5 sUSB).trace =
        false := by
  decide

/-- Claim C4 (amended): within one hardware-voice-memory keying operation
the serial PTT signal is a short pulse — asserted, the CI-V command sent,
then de-asserted immediately, all before any power-meter polling; the
subsequent poll events contain no PTT transitions, and the operation ends
with the line de-asserted.  (The rig itself keys during memory playback;
the power-meter poll only detects its end for status display.) -/
theorem c4_pulse_order
    (env : MemEnv) (fuel : Nat) (s : RigState)
    (h1 : env.serialOpen = true) (h2 : env.getPttOk = true)
    (h3 : env.pttStatus ≠ 1) (h4 : env.rtsRaiseOk = true)
    (h5 : env.civWriteOk = true) (h6 : env.rtsLowerOk = true) :
    ∃ pevs, (play_voice_memory_t1 env fuel s).trace =
        [Ev.rtsUp, Ev.civWrite cmdT1, Ev.rtsDown] ++ pevs ∧
      Ev.rtsUp ∉ pevs ∧ Ev.rtsDown ∉ pevs ∧
      (play_voice_memory_t1 env fuel s).state.rts = false := by
  refine ⟨(pollLoop env 0 fuel).1, ?_, ?_, ?_, ?_⟩
  · simp [play_voice_memory_t1, h1, h2, h3, h4, h5, h6]
  · intro hm
    rcases pollLoop_poll env fuel 0 _ hm with ⟨v, hv⟩ | hv <;> simp at hv
  · intro hm
    rcases pollLoop_poll env fuel 0 _ hm with ⟨v, hv⟩ | hv <;> simp at hv
  · simp [play_voice_memory_t1, h1, h2, h3, h4, h5, h6]

/-- Witness for C4 (amended) at the all-succeeding schedule. -/
theorem c4_pulse_order_witness :
    ∃ pevs, (play_voice_memory_t1 memEnvOk 5 sUSB).trace =
        [Ev.rtsUp, Ev.civWrite cmdT1, Ev.rtsDown] ++ pevs ∧
      Ev.rtsUp ∉ pevs ∧ Ev.rtsDown ∉ pevs ∧
      (play_voice_memory_t1 memEnvOk 5 sUSB).state.rts = false :=
  c4_pulse_order memEnvOk 5 sUSB rfl rfl (by decide) rfl rfl rfl

/-! ## Further helper lemmas and fixtures -/

lemma keyplay_trace_head (f : String) (env : TtsEnv) (s : RigState)
    (h3 : env.getModeOk = true) (h4 : env.setModeDataOk = true) :
    ∃ rest, (tts_key_play f env s).trace =
      Ev.modeSet (dataVariant s.mode) :: Ev.settleSleep 200 :: rest := by
  have hsnap : snapshotStep env s =
      (some s.mode, { s with mode := dataVariant s.mode },
        [Ev.modeSet (dataVariant s.mode), Ev.settleSleep 200]) := by
    simp [snapshotStep, h3, h4]
  by_cases hra : env.rtsRaiseOk
  · rcases hp : env.paplayRun with _ | c
    · by_cases ho : env.rtsOuterOk
      · exact ⟨[Ev.rtsUp, Ev.play f none, Ev.rtsDown],
          by simp [tts_key_play, hsnap, hra, hp, ho]⟩
      · exact ⟨[Ev.rtsUp, Ev.play f none, Ev.rtsDownFail],
          by simp [tts_key_play, hsnap, hra, hp, ho]⟩
    · by_cases hl : env.rtsLowerOk
      · exact ⟨[Ev.rtsUp, Ev.play f (some c), Ev.rtsDown] ++
          (restoreStep env (some s.mode)
            { s with mode := dataVariant s.mode, rts := false }).2,
          by simp [tts_key_play, hsnap, hra, hp, hl]⟩
      · exact ⟨[Ev.rtsUp, Ev.play f (some c), Ev.rtsDownFail] ++
          (restoreStep env (some s.mode)
            { s with mode := dataVariant s.mode, rts := true }).2,
          by simp [tts_key_play, hsnap, hra, hp, hl]⟩
  · exact ⟨[Ev.rtsUpFail], by simp [tts_key_play, hsnap, hra]⟩

lemma keyplay_result_finished (f : String) (env : TtsEnv) (s : RigState)
    (c : Int) (h4 : env.rtsRaiseOk = true) (h5 : env.paplayRun = some c) :
    (tts_key_play f env s).result = TtsOutcome.finished := by
  by_cases hl : env.rtsLowerOk <;> simp [tts_key_play, h4, h5, hl]

lemma keyplay_play_mem (f : String) (env : TtsEnv) (s : RigState) (c : Int)
    (h4 : env.rtsRaiseOk = true) (h5 : env.paplayRun = some c)
    (h6 : env.rtsLowerOk = true) :
    Ev.play f (some c) ∈ (tts_key_play f env s).trace ∧
      Ev.rtsDown ∈ (tts_key_play f env s).trace := by
  simp [tts_key_play, h4, h5, h6]

lemma keyplay_no_modeEvs (f : String) (env : TtsEnv) (s : RigState)
    (h3 : env.getModeOk = false) (m : String) :
    Ev.modeSet m ∉ (tts_key_play f env s).trace ∧
      Ev.modeSetFail m ∉ (tts_key_play f env s).trace := by
  have hsnap : snapshotStep env s = (none, s, [Ev.modeGetFail]) := by
    simp [snapshotStep, h3]
  by_cases h4 : env.rtsRaiseOk
  · rcases hp : env.paplayRun with _ | c
    · by_cases ho : env.rtsOuterOk <;>
        simp [tts_key_play, hsnap, h4, hp, ho, restoreStep]
    · by_cases hl : env.rtsLowerOk <;>
        simp [tts_key_play, hsnap, h4, hp, hl, restoreStep]
  · simp [tts_key_play, hsnap, h4]

/-- TTS fault schedule whose wav file never appears. -/
def ttsEnvNR : TtsEnv := { ttsEnvOk with fileExists := fun _ => false }

/-- Third-button fault schedule whose wav file never appears. -/
def tts73EnvNR : Tts73Env := { tts73EnvOk with toTtsEnv := ttsEnvNR }

/-- Third-button fault schedule where sox exits 1 (everything else ok). -/
def tts73EnvSoxFail : Tts73Env := { tts73EnvOk with soxOutcome := some 1 }

/-- All-ok TTS schedule whose `get_mode` RPC raises. -/
def ttsEnvNoGet : TtsEnv := { ttsEnvOk with getModeOk := false }

/-- All-ok TTS schedule whose data-variant `set_mode` RPC raises. -/
def ttsEnvNoSet : TtsEnv := { ttsEnvOk with setModeDataOk := false }

/-- All-ok third-button schedule whose `get_mode` RPC raises. -/
def tts73EnvNoGet : Tts73Env := { tts73EnvOk with toTtsEnv := ttsEnvNoGet }

/-- Claim C5 (confirmed): the readiness wait for a missing TTS file is
bounded — at most 50 polls, one 0.1 s sleep each (5 s total) — and when the
file is still absent the operation returns the prompt-not-ready error with
the hardware state untouched and a trace consisting solely of wait sleeps:
no PTT assert, no mode change, no playback. -/
theorem c5_bounded_wait (env : TtsEnv) (w : String) (s : RigState)
    (e73 : Tts73Env) (t : RigState) :
    (ttsReady env.fileExists).1.length ≤ 50 ∧
    ((play_tts w env s).result = TtsOutcome.promptNotReady →
      (play_tts w env s).state = s ∧
        (play_tts w env s).trace.length ≤ 50 ∧
        ∀ e ∈ (play_tts w env s).trace, e = Ev.waitSleep) ∧
    ((play_tts_73 e73 t).result = TtsOutcome.promptNotReady →
      (play_tts_73 e73 t).state = t ∧
        (play_tts_73 e73 t).trace.length ≤ 50 ∧
        ∀ e ∈ (play_tts_73 e73 t).trace, e = Ev.waitSleep) := by
  refine ⟨ttsReady_len env.fileExists, fun hres => ?_, fun hres => ?_⟩
  · cases hso : env.serialOpen with
    | false =>
      rw [play_tts_closed w env s hso] at hres
      simp at hres
    | true =>
      cases hr2 : (ttsReady env.fileExists).2 with
      | true =>
        rw [play_tts_shape w env s hso hr2] at hres
        exact absurd hres (keyplay_result_ne_notReady w env s)
      | false =>
        rw [play_tts_notReady w env s hso hr2]
        exact ⟨rfl, ttsReady_len env.fileExists, ttsReady_wait env.fileExists⟩
  · cases hso : e73.serialOpen with
    | false =>
      rw [tts73_closed e73 t hso] at hres
      simp at hres
    | true =>
      cases hr2 : (ttsReady e73.fileExists).2 with
      | true =>
        obtain ⟨f, sEvs, heq, hsox⟩ := tts73_shape e73 t hso hr2
        rw [heq] at hres
        exact absurd hres (keyplay_result_ne_notReady f e73.toTtsEnv t)
      | false =>
        rw [tts73_notReady e73 t hso hr2]
        exact ⟨rfl, ttsReady_len e73.fileExists, ttsReady_wait e73.fileExists⟩

/-- Witness for C5 with a file that never appears: both operations give up
with prompt-not-ready, the state untouched and only wait sleeps traced. -/
theorem c5_bounded_wait_witness :
    (play_tts wavN9oh ttsEnvNR sUSB).state = sUSB ∧
      (play_tts wavN9oh ttsEnvNR sUSB).trace.length ≤ 50 ∧
      (∀ e ∈ (play_tts wavN9oh ttsEnvNR sUSB).trace, e = Ev.waitSleep) ∧
      (play_tts_73 tts73EnvNR sUSB).state = sUSB := by
  have h := c5_bounded_wait ttsEnvNR wavN9oh sUSB tts73EnvNR sUSB
  have ha := h.2.1 (by decide)
  have hb := h.2.2 (by decide)
  exact ⟨ha.1, ha.2.1, ha.2.2, hb.1⟩

/-- Claim C6 (confirmed): before PTT is asserted and playback begins, a
synthesized-prompt keying operation that snapshots the mode successfully
switches the rig to the data variant of the snapshot — the very first two
trace events are the data-variant mode set and the 0.2 s settle delay — and
the data variant appends "-D" exactly when "-D" is not already present
("USB" becomes "USB-D", "USB-D" stays "USB-D"). -/
theorem c6_data_mode_switch (env : TtsEnv) (w : String) (s : RigState)
    (h1 : env.serialOpen = true) (h2 : env.fileExists 0 = true)
    (h3 : env.getModeOk = true) (h4 : env.setModeDataOk = true) :
    (∃ rest, (play_tts w env s).trace =
      Ev.modeSet (dataVariant s.mode) :: Ev.settleSleep 200 :: rest) ∧
    dataVariant "USB" = "USB-D" ∧ dataVariant "USB-D" = "USB-D" ∧
    (containsDashD s.mode.data = false →
      dataVariant s.mode = s.mode ++ "-D") ∧
    (containsDashD s.mode.data = true → dataVariant s.mode = s.mode) := by
  refine ⟨?_, by decide, by decide,
    fun h => by simp [dataVariant, h], fun h => by simp [dataVariant, h]⟩
  have hready : (ttsReady env.fileExists).2 = true := by simp [ttsReady, h2]
  have hw1 : (ttsReady env.fileExists).1 = [] := by simp [ttsReady, h2]
  rw [play_tts_shape w env s h1 hready]
  obtain ⟨rest, hrest⟩ := keyplay_trace_head w env s h3 h4
  exact ⟨rest, by simp [hw1, hrest]⟩

/-- Witness for C6 at the all-succeeding schedule from mode "USB". -/
theorem c6_data_mode_switch_witness :
    (∃ rest, (play_tts wavN9oh ttsEnvOk sUSB).trace =
      Ev.modeSet (dataVariant sUSB.mode) :: Ev.settleSleep 200 :: rest) ∧
    dataVariant "USB" = "USB-D" ∧ dataVariant "USB-D" = "USB-D" ∧
    (containsDashD sUSB.mode.data = false →
      dataVariant sUSB.mode = sUSB.mode ++ "-D") ∧
    (containsDashD sUSB.mode.data = true →
      dataVariant sUSB.mode = sUSB.mode) :=
  c6_data_mode_switch ttsEnvOk wavN9oh sUSB rfl rfl rfl rfl

/-- Claim C9 (confirmed): when a pitch is configured and the sox pitch shift
exits non-zero or fails to launch, `play_tts_73` does not abort and surfaces
no error for it: the run is exactly the shared keying core applied to the
original unshifted wav file, and with the downstream calls succeeding it
keys, plays the original file, unkeys and restores the mode just as in the
success case. -/
theorem c9_pitch_fallback (e : Tts73Env) (s : RigState) (c : Int)
    (h1 : e.serialOpen = true) (h2 : e.fileExists 0 = true)
    (h3 : e.pitch ≠ "") (h4 : e.pitch ≠ "0")
    (h5 : e.soxOutcome = none ∨ ∃ k, e.soxOutcome = some k ∧ k ≠ 0) :
    (play_tts_73 e s).trace =
      Ev.soxRun wav73 pitched73 false ::
        (tts_key_play wav73 e.toTtsEnv s).trace ∧
    (play_tts_73 e s).result = (tts_key_play wav73 e.toTtsEnv s).result ∧
    (play_tts_73 e s).state = (tts_key_play wav73 e.toTtsEnv s).state ∧
    (e.getModeOk = true → e.rtsRaiseOk = true → e.paplayRun = some c →
      e.rtsLowerOk = true → e.setModeRestoreOk = true →
      s.mode.data.isEmpty = false →
      (play_tts_73 e s).result = TtsOutcome.finished ∧
        Ev.rtsUp ∈ (play_tts_73 e s).trace ∧
        Ev.play wav73 (some c) ∈ (play_tts_73 e s).trace ∧
        Ev.rtsDown ∈ (play_tts_73 e s).trace ∧
        (play_tts_73 e s).state.mode = restoreVariant s.mode) := by
  have hready : (ttsReady e.fileExists).2 = true := by simp [ttsReady, h2]
  have hw1 : (ttsReady e.fileExists).1 = [] := by simp [ttsReady, h2]
  have hred : play_tts_73 e s =
      ⟨(tts_key_play wav73 e.toTtsEnv s).state,
        [Ev.soxRun wav73 pitched73 false] ++
          (tts_key_play wav73 e.toTtsEnv s).trace,
        (tts_key_play wav73 e.toTtsEnv s).result⟩ := by
    rcases h5 with h5 | ⟨k, hk, hkne⟩
    · simp [play_tts_73, h1, hready, hw1, h3, h4, h5]
    · simp [play_tts_73, h1, hready, hw1, h3, h4, hk, hkne]
  refine ⟨by simp [hred], by rw [hred], by rw [hred],
    fun g3 g4 g5 g6 g7 g8 => ?_⟩
  rw [hred]
  have hr := keyplay_restore wav73 e.toTtsEnv s c g3 g4 g5 g7 g8
  have hm := keyplay_play_mem wav73 e.toTtsEnv s c g4 g5 g6
  refine ⟨hr.2, ?_, ?_, ?_, hr.1⟩
  · simp only [List.singleton_append, List.mem_cons]
    exact Or.inr (keyplay_up_mem wav73 e.toTtsEnv s g4)
  · simp only [List.singleton_append, List.mem_cons]
    exact Or.inr hm.1
  · simp only [List.singleton_append, List.mem_cons]
    exact Or.inr hm.2

/-- Witness for C9 with sox exiting 1 and everything else succeeding. -/
theorem c9_pitch_fallback_witness :
    (play_tts_73 tts73EnvSoxFail sUSB).result = TtsOutcome.finished ∧
      Ev.play wav73 (some 0) ∈ (play_tts_73 tts73EnvSoxFail sUSB).trace ∧
      (play_tts_73 tts73EnvSoxFail sUSB).state.mode =
        restoreVariant sUSB.mode := by
  have h := c9_pitch_fallback tts73EnvSoxFail sUSB 0 rfl rfl (by decide)
    (by decide) (Or.inr ⟨1, rfl, by decide⟩)
  have h4 := h.2.2.2 rfl rfl rfl rfl rfl rfl
  exact ⟨h4.1, h4.2.2.1, h4.2.2.2.2⟩

/-- Claim C10 (confirmed): in every synthesized-prompt keying operation a
failed mode snapshot or a failed switch to the data variant is non-fatal —
PTT is still asserted and playback still runs — and when the snapshot itself
failed (prior mode `None`) no mode restore (not even an attempt) appears in
the trace. -/
theorem c10_mode_fail_nonfatal
    (ea eb : TtsEnv) (e73 : Tts73Env) (w : String)
    (sa sb sc : RigState) (c : Int)
    (ha1 : ea.serialOpen = true) (ha2 : ea.fileExists 0 = true)
    (ha3 : ea.getModeOk = false) (ha4 : ea.rtsRaiseOk = true)
    (ha5 : ea.paplayRun = some c)
    (hb1 : eb.serialOpen = true) (hb2 : eb.fileExists 0 = true)
    (hb3 : eb.getModeOk = true) (hb4 : eb.setModeDataOk = false)
    (hb5 : eb.rtsRaiseOk = true) (hb6 : eb.paplayRun = some c)
    (hc1 : e73.serialOpen = true) (hc2 : e73.fileExists 0 = true)
    (hc3 : e73.getModeOk = false) (hc4 : e73.rtsRaiseOk = true)
    (hc5 : e73.paplayRun = some c) :
    ((play_tts w ea sa).result = TtsOutcome.finished ∧
      Ev.rtsUp ∈ (play_tts w ea sa).trace ∧
      Ev.play w (some c) ∈ (play_tts w ea sa).trace ∧
      (∀ m, Ev.modeSet m ∉ (play_tts w ea sa).trace) ∧
      (∀ m, Ev.modeSetFail m ∉ (play_tts w ea sa).trace)) ∧
    ((play_tts w eb sb).result = TtsOutcome.finished ∧
      Ev.rtsUp ∈ (play_tts w eb sb).trace ∧
      Ev.play w (some c) ∈ (play_tts w eb sb).trace) ∧
    ((play_tts_73 e73 sc).result = TtsOutcome.finished ∧
      Ev.rtsUp ∈ (play_tts_73 e73 sc).trace ∧
      (∀ m, Ev.modeSet m ∉ (play_tts_73 e73 sc).trace)) := by
  have hreadyA : (ttsReady ea.fileExists).2 = true := by simp [ttsReady, ha2]
  have hw1A : (ttsReady ea.fileExists).1 = [] := by simp [ttsReady, ha2]
  have hreadyB : (ttsReady eb.fileExists).2 = true := by simp [ttsReady, hb2]
  have hw1B : (ttsReady eb.fileExists).1 = [] := by simp [ttsReady, hb2]
  have hreadyC : (ttsReady e73.fileExists).2 = true := by
    simp [ttsReady, hc2]
  refine ⟨?_, ?_, ?_⟩
  · rw [play_tts_shape w ea sa ha1 hreadyA]
    have hsnap : snapshotStep ea sa = (none, sa, [Ev.modeGetFail]) := by
      simp [snapshotStep, ha3]
    refine ⟨keyplay_result_finished w ea sa c ha4 ha5, ?_, ?_, ?_, ?_⟩
    · simp only [hw1A, List.nil_append]
      exact keyplay_up_mem w ea sa ha4
    · simp only [hw1A, List.nil_append]
      by_cases hl : ea.rtsLowerOk <;> simp [tts_key_play, hsnap, ha4, ha5, hl]
    · intro m
      simp only [hw1A, List.nil_append]
      exact (keyplay_no_modeEvs w ea sa ha3 m).1
    · intro m
      simp only [hw1A, List.nil_append]
      exact (keyplay_no_modeEvs w ea sa ha3 m).2
  · rw [play_tts_shape w eb sb hb1 hreadyB]
    have hsnap : snapshotStep eb sb =
        (some sb.mode, sb, [Ev.modeSetFail (dataVariant sb.mode)]) := by
      simp [snapshotStep, hb3, hb4]
    refine ⟨keyplay_result_finished w eb sb c hb5 hb6, ?_, ?_⟩
    · simp only [hw1B, List.nil_append]
      exact keyplay_up_mem w eb sb hb5
    · simp only [hw1B, List.nil_append]
      by_cases hl : eb.rtsLowerOk <;> simp [tts_key_play, hsnap, hb5, hb6, hl]
  · obtain ⟨f, sEvs, heq, hsox⟩ := tts73_shape e73 sc hc1 hreadyC
    rw [heq]
    refine ⟨keyplay_result_finished f e73.toTtsEnv sc c hc4 hc5, ?_, ?_⟩
    · simp only [List.mem_append]
      exact Or.inr (keyplay_up_mem f e73.toTtsEnv sc hc4)
    · intro m hmem
      simp only [List.mem_append] at hmem
      rcases hmem with (hmem | hmem) | hmem
      · have := ttsReady_wait e73.fileExists _ hmem
        simp at this
      · obtain ⟨a, b, o, ho⟩ := hsox _ hmem
        simp at ho
      · exact absurd hmem (keyplay_no_modeEvs f e73.toTtsEnv sc hc3 m).1

/-- Witness for C10: with `get_mode` raising (first and third operations) or
the data-variant `set_mode` raising (second), playback still finishes. -/
theorem c10_mode_fail_nonfatal_witness :
    (play_tts wavN9oh ttsEnvNoGet sUSB).result = TtsOutcome.finished ∧
      Ev.rtsUp ∈ (play_tts wavN9oh ttsEnvNoGet sUSB).trace ∧
      (play_tts wavN9oh ttsEnvNoSet sUSB).result = TtsOutcome.finished ∧
      (play_tts_73 tts73EnvNoGet sUSB).result = TtsOutcome.finished := by
  have h := c10_mode_fail_nonfatal ttsEnvNoGet ttsEnvNoSet tts73EnvNoGet
    wavN9oh sUSB sUSB sUSB 0 rfl rfl rfl rfl rfl rfl rfl rfl rfl rfl rfl
    rfl rfl rfl rfl rfl
  exact ⟨h.1.1, h.1.2.1, h.2.1.1, h.2.2.1⟩

/-- A stopped recorder session already saved at "/home/b". -/
def recSaved : RecState := ⟨false, some "/home/b", true, ["/home/b"]⟩

/-- A stopped recorder session not yet saved, file at "/tmp/a". -/
def recUnsaved : RecState := ⟨false, some "/tmp/a", false, ["/tmp/a"]⟩

/-- Claim C7 (confirmed): deleting a saved recording with confirmation
refused returns with the whole recorder state unchanged and the saved file
still on disk; deleting an unsaved recording ignores the confirmation flag
entirely (it is never asked for) and, when the removal succeeds, deletes the
file and clears the session. -/
theorem c7_delete_confirmation (s : RecState) (f : String) (r : Bool)
    (h1 : s.currentFile = some f) (h2 : f ∈ s.files) :
    (s.saved = true →
      delete_recording false r s = s ∧
        f ∈ (delete_recording false r s).files) ∧
    (s.saved = false →
      (∀ c₁ c₂ r₂, delete_recording c₁ r₂ s = delete_recording c₂ r₂ s) ∧
        ∀ conf, delete_recording conf true s =
          ⟨false, none, false, s.files.erase f⟩) := by
  constructor
  · intro hsaved
    have hd : delete_recording false r s = s := by
      simp [delete_recording, h1, h2, hsaved]
    exact ⟨hd, by rw [hd]; exact h2⟩
  · intro hsaved
    constructor
    · intro c₁ c₂ r₂
      simp [delete_recording, h1, h2, hsaved]
    · intro conf
      simp [delete_recording, h1, h2, hsaved]

/-- Witness for C7: a refused delete on a saved session changes nothing and
the file survives; a delete on an unsaved session proceeds with or without
confirmation. -/
theorem c7_delete_confirmation_witness :
    (delete_recording false true recSaved = recSaved ∧
      "/home/b" ∈ (delete_recording false true recSaved).files) ∧
    (delete_recording true true recUnsaved =
        delete_recording false true recUnsaved ∧
      (delete_recording true true recUnsaved).currentFile = none) := by
  have hs := c7_delete_confirmation recSaved "/home/b" true rfl
    (by decide)
  have hu := c7_delete_confirmation recUnsaved "/tmp/a" true rfl
    (by decide)
  have hs1 := hs.1 rfl
  have hu1 := hu.2 rfl
  exact ⟨⟨hs1.1, hs1.2⟩, ⟨hu1.1 true false true, by rw [hu1.2 true]⟩⟩

lemma toggle_recording_saved (ok : Bool) (n : String) (s : RecState)
    (h : (toggle_recording ok n s).saved = true) : s.saved = true := by
  by_cases hrec : s.recording
  · simpa [toggle_recording, hrec] using h
  · by_cases hok : ok <;> simp [toggle_recording, hrec, hok] at h

lemma save_recording_saved (sp : Option String) (mv : Bool) (s : RecState)
    (h : (save_recording sp mv s).saved = true) :
    s.saved = true ∨ ∃ p, sp = some p ∧ mv = true := by
  rcases hf : s.currentFile with _ | f
  · exact Or.inl (by simpa [save_recording, hf] using h)
  · by_cases hmem : f ∈ s.files
    · rcases hsp : sp with _ | p
      · exact Or.inl (by simpa [save_recording, hf, hmem, hsp] using h)
      · cases hmv : mv with
        | true => exact Or.inr ⟨p, rfl, rfl⟩
        | false =>
          exact Or.inl
            (by simpa [save_recording, hf, hmem, hsp, hmv] using h)
    · exact Or.inl (by simpa [save_recording, hf, hmem] using h)

lemma delete_recording_saved (c r : Bool) (s : RecState)
    (h : (delete_recording c r s).saved = true) : s.saved = true := by
  rcases hf : s.currentFile with _ | f
  · simpa [delete_recording, hf] using h
  · by_cases hmem : f ∈ s.files
    · cases hsv : s.saved with
      | true => rfl
      | false =>
        cases hc : c <;> cases hrm : r <;>
          simp [delete_recording, hf, hmem, hsv, hc, hrm] at h
    · simpa [delete_recording, hf, hmem] using h

lemma save_recording_fail_saved (sp : Option String) (s : RecState) :
    (save_recording sp false s).saved = s.saved := by
  rcases hf : s.currentFile with _ | f
  · simp [save_recording, hf]
  · by_cases hmem : f ∈ s.files
    · rcases sp with _ | p <;> simp [save_recording, hf, hmem]
    · simp [save_recording, hf, hmem]

lemma save_recording_cancel_saved (mv : Bool) (s : RecState) :
    (save_recording none mv s).saved = s.saved := by
  rcases hf : s.currentFile with _ | f
  · simp [save_recording, hf]
  · by_cases hmem : f ∈ s.files <;> simp [save_recording, hf, hmem]

/-- Claim C8, as stated, is false on the code: after start, stop, a
successful save to "/home/b" and then a failed save (`mv` exit non-zero,
the final operation of the run), the saved flag still reads true — a failed
save leaves the flag unchanged rather than false as the claim requires. -/
theorem c8_saved_flag_counterexample :
    (recRun [RecOp.toggle true "/tmp/a", RecOp.toggle true "/tmp/a",
      RecOp.save (some "/home/b") true,
      RecOp.save (some "/home/c") false] recInit).saved = true := by
  decide

/-- Claim C8 (amended): across every recorder operation the saved flag
becomes true only through a save whose `mv` exits zero (a successful move to
a user-chosen destination); it is false for a newly started recording; a
failed (`mv` non-zero) or cancelled save leaves the flag unchanged — so it
stays false while the session was never successfully saved, but stays true
if an earlier save of the session had succeeded; delete never sets it. -/
theorem c8_saved_flag_amended (op : RecOp) (s : RecState)
    (ok : Bool) (n : String) (sp : Option String) (mv c r : Bool) :
    ((recStep op s).saved = true →
      s.saved = true ∨ ∃ p, op = RecOp.save (some p) true) ∧
    (s.recording = false → (recStep (RecOp.toggle ok n) s).saved = false) ∧
    ((recStep (RecOp.save sp false) s).saved = s.saved) ∧
    ((recStep (RecOp.save none mv) s).saved = s.saved) ∧
    ((recStep (RecOp.del c r) s).saved = true → s.saved = true) := by
  refine ⟨?_, ?_, ?_, ?_, ?_⟩
  · intro hset
    cases op with
    | toggle ok2 n2 =>
      exact Or.inl (toggle_recording_saved ok2 n2 s hset)
    | save sp2 mv2 =>
      rcases save_recording_saved sp2 mv2 s hset with h | ⟨p, hp, hm⟩
      · exact Or.inl h
      · exact Or.inr ⟨p, by rw [hp, hm]⟩
    | del c2 r2 =>
      exact Or.inl (delete_recording_saved c2 r2 s hset)
  · intro hrec
    by_cases hok : ok <;> simp [recStep, toggle_recording, hrec, hok]
  · exact save_recording_fail_saved sp s
  · exact save_recording_cancel_saved mv s
  · exact fun hset => delete_recording_saved c r s hset

/-- Witness for C8 (amended): starting a recording clears the flag, and a
failed save on a fresh recorder leaves the flag at its prior (false)
value. -/
theorem c8_saved_flag_witness :
    (recStep (RecOp.toggle true "/tmp/a") recInit).saved = false ∧
      (recStep (RecOp.save (some "/home/x") false) recUnsaved).saved =
        recUnsaved.saved := by
  have h := c8_saved_flag_amended (RecOp.toggle true "/tmp/a") recInit true
    "/tmp/a" (some "/home/x") false false false
  have h2 := c8_saved_flag_amended (RecOp.toggle true "/tmp/a") recUnsaved
    true "/tmp/a" (some "/home/x") false false false
  exact ⟨h.2.1 rfl, h2.2.2.1⟩

end RigMacros
